import Mathlib

/-!
Verification of the quicky-setup scaffolding CLI against its specification.

The development shallowly embeds the decision logic of the repository:

* the directory planner `createFolders` (scaffolder, `createFolders`),
* the environment-file setup `setupEnvFiles` (env-setup module),
* the auth template scaffolding `scaffoldApiServiceFiles` (apiService module,
  `scaffoldApiService`),
* the orchestrator `scaffoldProject` (scaffolder, `scaffoldProject`),
* the Redux template writer `scaffoldReduxStoreFiles` (redux module,
  `scaffoldReduxStore`),
* the token-refresh control flow of the generated API client (`apiLS` for the
  localStorage template variant, `apiCookie` for the cookie template variant),
  together with the generated `optimisticUpdate` helper.

Filesystem and network effects are made explicit: file writes become lists of
written paths or events, the module-level mutable client state becomes a state
record threaded through the call, and the outcomes of HTTP requests become an
explicit environment record.  Machine strings are Lean `String`s; the
JavaScript `String.prototype.includes` check becomes a list-infix test on the
character lists.
-/

namespace Quicky

/-- `hay.includes(pat)` of JavaScript: `pat` occurs as a contiguous substring
of `hay`. -/
def includesSubstr (hay pat : String) : Bool :=
  decide (pat.toList <:+: hay.toList)

/-- The `framework` answer: `"react" | "next"` (prompts module). -/
inductive Framework where
  | react
  | next
deriving DecidableEq

/-- The `language` answer: `"js" | "ts"` (prompts module). -/
inductive Language where
  | js
  | ts
deriving DecidableEq

/-- The `routing` answer: `"app" | "pages"` (prompts module). -/
inductive Routing where
  | app
  | pages
deriving DecidableEq

/-- The `uiLibrary` answer: `"none" | "shadcn" | "antd"` (prompts module). -/
inductive UiLibrary where
  | none
  | shadcn
  | antd
deriving DecidableEq

/-- The two concrete auth-storage kinds; the absent / `null` case is modelled
with `Option AuthStorageKind`. -/
inductive AuthStorageKind where
  | cookie
  | localStorage
deriving DecidableEq

/-- The `Answers` record produced by the prompt sequence (prompts module). -/
structure Answers where
  projectName : String
  framework : Framework
  routing : Routing
  language : Language
  redux : Bool
  auth : Bool
  authStorage : Option AuthStorageKind
  uiLibrary : UiLibrary
deriving DecidableEq

/-- File extension selected by the language, `language === "ts" ? "ts" : "js"`
(apiService module, redux module). -/
def extOf (l : Language) : String :=
  match l with
  | .ts => "ts"
  | .js => "js"

/-- Directory planner `createFolders` of the scaffolder module: the ordered
list of relative folder paths it creates under the project root.  The source
starts from `["public"]` and pushes the framework-specific entries; the
trailing `else` branch of the source is unreachable because the `Framework`
type has only the two constructors. -/
def createFolders (framework : Framework) : List String :=
  ["public"] ++
    match framework with
    | .next =>
        ["components", "hooks", "lib", "styles", "types", "services"]
    | .react =>
        ["src/components", "src/hooks", "src/layouts", "src/services",
         "src/styles", "src/utils", "src/pages", "src/routes"]

/-- Framework-specific API base-URL variable name,
`framework === "next" ? "NEXT_PUBLIC_API_URL" : "VITE_API_URL"`
(apiService module and env-setup module). -/
def envVarName (framework : Framework) : String :=
  match framework with
  | .next => "NEXT_PUBLIC_API_URL"
  | .react => "VITE_API_URL"

/-- Framework-specific websocket-URL variable name (env-setup module). -/
def socketVarName (framework : Framework) : String :=
  match framework with
  | .next => "NEXT_PUBLIC_SOCKET_URL"
  | .react => "VITE_SOCKET_URL"

/-- Framework-specific auth-secret variable name (env-setup module). -/
def authSecretVarName (framework : Framework) : String :=
  match framework with
  | .next => "NEXTAUTH_SECRET"
  | .react => "VITE_AUTH_SECRET"

/-- The `.env` content built by `setupEnvFiles`; `secret` stands for the
result of `generateRandomString(32)` (env-setup module). -/
def envContent (framework : Framework) (secret : String) : String :=
  "# API Base URL\n" ++ envVarName framework ++ "=http://localhost:3000/api\n\n" ++
  "# WebSocket server URL\n" ++ socketVarName framework ++ "=http://localhost:3000\n\n" ++
  "# Authentication secret\n" ++ authSecretVarName framework ++ "=" ++ secret ++ "\n\n" ++
  "# Environment\nNODE_ENV=development\n"

/-- The block appended to `.gitignore` when it does not yet mention `.env`
(env-setup module). -/
def gitignoreBlock : String :=
  "\n# Environment variables\n.env\n.env.local\n.env.*.local\n"

/-- The slice of the project filesystem that `setupEnvFiles` touches: the
`.env` file and the `.gitignore` file, each either absent or present with its
content. -/
structure EnvFs where
  envFile : Option String
  gitignore : Option String
deriving DecidableEq

/-- `setupEnvFiles` of the env-setup module: writes `.env` only when it does
not already exist, then appends the environment-exclusion block to
`.gitignore` when its current content (empty when the file is absent) does not
contain `".env"`. -/
def setupEnvFiles (framework : Framework) (secret : String) (fs : EnvFs) : EnvFs :=
  let fs1 :=
    match fs.envFile with
    | none => { fs with envFile := some (envContent framework secret) }
    | some _ => fs
  let gitignoreContent := fs1.gitignore.getD ""
  if includesSubstr gitignoreContent ".env" then fs1
  else { fs1 with gitignore := some (gitignoreContent ++ gitignoreBlock) }

/-- The services directory used by `scaffoldApiService`:
`lib` for next, `src/lib` for react (apiService module). -/
def servicesDir (framework : Framework) : String :=
  match framework with
  | .next => "lib"
  | .react => "src/lib"

/-- The relative paths of the files written by `scaffoldApiService`
(apiService module), in write order: the API-client file is written only when
an auth storage kind was selected (the template IIFE returns content exactly
for the `localStorage` and `cookie` cases), while the `Routes` and
`apiEndpoints` files are written unconditionally at the end of the function. -/
def scaffoldApiServiceFiles (language : Language)
    (authStorage : Option AuthStorageKind) (framework : Framework) : List String :=
  (match authStorage with
   | some _ => [servicesDir framework ++ "/apiClient." ++ extOf language]
   | none => []) ++
  [servicesDir framework ++ "/Routes." ++ extOf language,
   servicesDir framework ++ "/apiEndpoints." ++ extOf language]

/-- The environment variables referenced by the generated API-client template
selected for a given storage kind and framework (apiService module), in source
order.  Both language variants of a storage kind reference the same
variables.  The `localStorage` template references `envVarName framework`
in `defaults.baseURL` and then the hard-coded `process.env.NEXT_PUBLIC_API_URL`
inside its `refreshToken` helper; the `cookie` template references only
`envVarName framework` in `defaults.baseURL`. -/
def apiClientEnvRefs (storage : AuthStorageKind) (framework : Framework) : List String :=
  match storage with
  | .localStorage => [envVarName framework, "NEXT_PUBLIC_API_URL"]
  | .cookie => [envVarName framework]

/-! ### Generated API client

The generated `apiClient` template ships a function `api` whose control flow
is identical in the TypeScript and JavaScript renderings of each storage
variant (the two renderings differ only by type annotations).  The model makes
the module-level mutable flag `hasTriedRefresh`, the browser state touched by
the client (`localStorage` tokens, `document.cookie`, `window.location.href`)
and the outcomes of the at most three HTTP requests of one call (first
attempt, refresh, retry) explicit. -/

/-- Outcome of one axios request: a successful response carrying data, an
axios error carrying a response (status and optional body message), or an
axios error with no response (network failure). -/
inductive AxiosOutcome where
  | success (data : Nat)
  | respError (status : Nat) (msg : Option String)
  | noResponse
deriving DecidableEq

/-- Outcome of the refresh HTTP request: success optionally carrying new
access and refresh tokens in `response.data.data`, or failure. -/
inductive RefreshOutcome where
  | success (newAccess : Option String) (newRefresh : Option String)
  | failure
deriving DecidableEq

/-- The HTTP outcomes a single `api` call can observe. -/
structure CallEnv where
  first : AxiosOutcome
  refresh : RefreshOutcome
  retry : AxiosOutcome
deriving DecidableEq

/-- Result of one `api` call: the returned response data, a thrown plain
object carrying a `message` field, or the thrown `defaults.error` object. -/
inductive ApiOutcome where
  | ok (data : Nat)
  | thrownMessage (msg : String)
  | internalError
deriving DecidableEq

/-- How many times one `api` call invoked the generated `refreshToken` helper
and how many times it retried the original request. -/
structure CallTrace where
  refreshCalls : Nat
  retryCalls : Nat
deriving DecidableEq

/-- `SystemRoutes.LOGIN` of the generated `Routes` template. -/
def loginRoute : String := "/login"

/-- The message of the session-expired error thrown by the generated client. -/
def sessionExpiredMsg : String := "Session expired. Please log in again."

/-- Client-visible browser state of the localStorage template variant. -/
structure LSState where
  hasTriedRefresh : Bool
  accessToken : Option String
  refreshTok : Option String
  cookie : String
  location : String
deriving DecidableEq

/-- `hasRefreshTokenCookie` of the localStorage template variant:
`document.cookie.includes("refreshToken=")`. -/
def hasRefreshTokenCookie (s : LSState) : Bool :=
  includesSubstr s.cookie "refreshToken="

/-- `if (x) store(x)` of the refresh handler: a token field is overwritten
only when the response carried a new value. -/
def updateTok (incoming old : Option String) : Option String :=
  match incoming with
  | some t => some t
  | none => old

/-- `refreshToken` of the localStorage template variant.  When no refresh
token is stored it throws before issuing the refresh request; its catch
removes both tokens, redirects to the login route and rethrows.  On a
successful refresh request it stores whichever tokens the response carried.
Returns whether the helper completed without throwing, and the new state. -/
def refreshTokenLS (r : RefreshOutcome) (s : LSState) : Bool × LSState :=
  match s.refreshTok with
  | none =>
      (false, { s with accessToken := none, refreshTok := none, location := loginRoute })
  | some _ =>
      match r with
      | .success a b =>
          (true, { s with accessToken := updateTok a s.accessToken,
                          refreshTok := updateTok b s.refreshTok })
      | .failure =>
          (false, { s with accessToken := none, refreshTok := none, location := loginRoute })

/-- `api` of the localStorage template variant.  A successful first attempt
resets `hasTriedRefresh` and returns the data.  A response error with status
401 enters the refresh branch only when `hasTriedRefresh` is still false and
`hasRefreshTokenCookie()` holds; the branch sets the flag, invokes
`refreshToken`, retries the original request once and resets the flag, and any
throw inside it (refresh failure or retry failure) is caught, resets the flag,
redirects to the login route and throws the session-expired message.  Every
other response error throws the normalized message object (a 402 additionally
logs a warning without altering control flow), and an error with no response
throws `defaults.error`. -/
def apiLS (env : CallEnv) (s : LSState) : ApiOutcome × LSState × CallTrace :=
  match env.first with
  | .success d => (.ok d, { s with hasTriedRefresh := false }, ⟨0, 0⟩)
  | .noResponse => (.internalError, s, ⟨0, 0⟩)
  | .respError status msg =>
      if status == 401 && !s.hasTriedRefresh && hasRefreshTokenCookie s then
        match refreshTokenLS env.refresh { s with hasTriedRefresh := true } with
        | (true, s2) =>
            match env.retry with
            | .success d => (.ok d, { s2 with hasTriedRefresh := false }, ⟨1, 1⟩)
            | _ =>
                (.thrownMessage sessionExpiredMsg,
                 { s2 with hasTriedRefresh := false, location := loginRoute }, ⟨1, 1⟩)
        | (false, s2) =>
            (.thrownMessage sessionExpiredMsg,
             { s2 with hasTriedRefresh := false, location := loginRoute }, ⟨1, 0⟩)
      else
        (.thrownMessage (msg.getD "Unknown API error"), s, ⟨0, 0⟩)

/-- Client-visible browser state of the cookie template variant (tokens live
in server-set cookies, so the client tracks only the flag, `document.cookie`
and the location). -/
structure CookieState where
  hasTriedRefresh : Bool
  cookie : String
  location : String
deriving DecidableEq

/-- `hasRefreshToken` of the cookie template variant:
`document.cookie.includes("refreshToken=")`. -/
def hasRefreshTokenC (s : CookieState) : Bool :=
  includesSubstr s.cookie "refreshToken="

/-- `refreshToken` of the cookie template variant: posts to the refresh
endpoint with credentials and rethrows a wrapped error on failure; it touches
no client-visible state. -/
def refreshTokenCookie (r : RefreshOutcome) : Bool :=
  match r with
  | .success _ _ => true
  | .failure => false

/-- `api` of the cookie template variant; same control flow as `apiLS` with
the cookie-based refresh helper. -/
def apiCookie (env : CallEnv) (s : CookieState) : ApiOutcome × CookieState × CallTrace :=
  match env.first with
  | .success d => (.ok d, { s with hasTriedRefresh := false }, ⟨0, 0⟩)
  | .noResponse => (.internalError, s, ⟨0, 0⟩)
  | .respError status msg =>
      if status == 401 && !s.hasTriedRefresh && hasRefreshTokenC s then
        match refreshTokenCookie env.refresh with
        | true =>
            match env.retry with
            | .success d => (.ok d, { s with hasTriedRefresh := false }, ⟨1, 1⟩)
            | _ =>
                (.thrownMessage sessionExpiredMsg,
                 { s with hasTriedRefresh := false, location := loginRoute }, ⟨1, 1⟩)
        | false =>
            (.thrownMessage sessionExpiredMsg,
             { s with hasTriedRefresh := false, location := loginRoute }, ⟨1, 0⟩)
      else
        (.thrownMessage (msg.getD "Unknown API error"), s, ⟨0, 0⟩)

/-- Whether an axios outcome makes the retry `await` throw. -/
def retryThrows (o : AxiosOutcome) : Bool :=
  match o with
  | .success _ => false
  | _ => true

/-- Whether an `api` call returned normally. -/
def apiOk (o : ApiOutcome) : Bool :=
  match o with
  | .ok _ => true
  | _ => false

/-- `optimisticUpdate` of the localStorage template variant: it first passes
`updatedFields` to `setLocalData`, performs the network write through `api`,
and its catch passes `currentFields` to `setLocalData` and logs, returning
normally either way.  The first component lists the arguments passed to
`setLocalData`, in order. -/
def optimisticUpdateLS (env : CallEnv) (s : LSState) (updatedFields currentFields : Nat) :
    List Nat × LSState :=
  match apiLS env s with
  | (.ok _, s2, _) => ([updatedFields], s2)
  | (_, s2, _) => ([updatedFields, currentFields], s2)

/-- `optimisticUpdate` of the cookie template variant. -/
def optimisticUpdateCookie (env : CallEnv) (s : CookieState) (updatedFields currentFields : Nat) :
    List Nat × CookieState :=
  match apiCookie env s with
  | (.ok _, s2, _) => ([updatedFields], s2)
  | (_, s2, _) => ([updatedFields, currentFields], s2)

/-! ### Redux template writer and orchestrator -/

/-- The store directory used by `scaffoldReduxStore`:
`store` for next, `src/store` for react (redux module). -/
def storeDir (framework : Framework) : String :=
  match framework with
  | .next => "store"
  | .react => "src/store"

/-- The relative paths of the files written by `scaffoldReduxStore` (redux
module), in write order: the store, the counter slice, the counter thunks,
and for TypeScript additionally the types file and the hooks file. -/
def scaffoldReduxStoreFiles (language : Language) (framework : Framework) : List String :=
  [storeDir framework ++ "/store." ++ extOf language,
   storeDir framework ++ "/features/counter/counterSlice." ++ extOf language,
   storeDir framework ++ "/features/counter/counterThunks." ++ extOf language] ++
  match language with
  | .ts => [storeDir framework ++ "/types/counter.types.ts", storeDir framework ++ "/hooks.ts"]
  | .js => []

/-- One observable effect of the orchestrator: ensuring a directory, invoking
an external command, writing a file (paths relative to the project root), or
logging a warning. -/
inductive Event where
  | mkdirEv (p : String)
  | execEv (cmd : String)
  | writeEv (p : String)
  | warnEv (msg : String)
deriving DecidableEq

/-- The world `scaffoldProject` runs against: which external commands fail
(an `execa` rejection propagates out of `scaffoldProject`), which files
already exist on disk, and whether the environment-file setup step throws. -/
structure World where
  execFails : String → Bool
  packageJsonExists : Bool
  viteConfigExists : Bool
  jsconfigExists : Bool
  envFileExists : Bool
  gitignoreHasEnv : Bool
  envSetupThrows : Bool

/-- Sequencing of two orchestrator phases: a failure of the first phase
aborts the run, otherwise the events of both phases are concatenated. -/
def seqE (r : Except String (List Event)) (f : Unit → Except String (List Event)) :
    Except String (List Event) :=
  match r with
  | .error e => .error e
  | .ok evs =>
      match f () with
      | .error e => .error e
      | .ok evs2 => .ok (evs ++ evs2)

/-- One external command invocation: an `execa` rejection becomes an error
that propagates, a successful run becomes an exec event. -/
def runExec (w : World) (cmd : String) : Except String (List Event) :=
  if w.execFails cmd then .error cmd else .ok [.execEv cmd]

/-- Step 1 and framework post-processing of `scaffoldProject` (scaffolder
module): for next, run `create-next-app` and merge the pinned entries into
`package.json` when the generator produced one; for react, run `create-vite`,
install the router, install and configure Tailwind (config file, stylesheet),
install the Vite plugin, and rewrite the Vite config when present. -/
def baseProject (a : Answers) (w : World) : Except String (List Event) :=
  match a.framework with
  | .next =>
      seqE (runExec w "npx create-next-app")
        (fun _ => .ok (if w.packageJsonExists then [.writeEv "package.json"] else []))
  | .react =>
      seqE (runExec w "npx create-vite") (fun _ =>
      seqE (runExec w "npm install react-router-dom") (fun _ =>
      seqE (runExec w "npm install -D tailwindcss postcss autoprefixer") (fun _ =>
      seqE (.ok [.writeEv "tailwind.config.js", .mkdirEv "src", .writeEv "src/index.css"]) (fun _ =>
      seqE (runExec w "npm install -D @tailwindcss/vite") (fun _ =>
      .ok (if w.viteConfigExists then [.writeEv ("vite.config." ++ extOf a.language)] else []))))))

/-- `setupEnvFiles` as invoked by the orchestrator, at event granularity:
it writes `.env` when absent and appends to `.gitignore` when the
environment-exclusion entry is missing, or throws when the world says the
step fails. -/
def setupEnvFilesRun (w : World) : Except String (List Event) :=
  if w.envSetupThrows then .error "env setup failed"
  else .ok ((if w.envFileExists then [] else [.writeEv ".env"]) ++
            (if w.gitignoreHasEnv then [] else [.writeEv ".gitignore"]))

/-- The auth step of `scaffoldProject`: when `auth` was requested, install
axios and js-cookie, then run `scaffoldApiService` (ensure the services
directory, write its files); `answers.authStorage ?? undefined` is passed
through unchanged. -/
def authPhase (a : Answers) (w : World) : Except String (List Event) :=
  if a.auth then
    seqE (runExec w "npm install axios js-cookie") (fun _ =>
      .ok ([.mkdirEv (servicesDir a.framework)] ++
           (scaffoldApiServiceFiles a.language a.authStorage a.framework).map Event.writeEv))
  else .ok []

/-- The UI-library step of `scaffoldProject`. -/
def uiPhase (a : Answers) (w : World) : Except String (List Event) :=
  match a.uiLibrary with
  | .shadcn => runExec w "npm install lucide-react class-variance-authority tailwind-merge clsx"
  | .antd => runExec w "npm install antd"
  | .none => .ok []

/-- `scaffoldProject` of the scaffolder module, as the sequence of its steps:
create the project root, build the base project, create the folder layout,
set up the environment files inside a try/catch whose catch only logs a
warning, rewrite `jsconfig.json` when present, run the auth step, run the
UI-library step, re-create the folder layout, write the README and run the
three git commands.  Note that the function never consults `answers.redux`:
no step invokes `scaffoldReduxStore`. -/
def scaffoldProject (a : Answers) (w : World) : Except String (List Event) :=
  seqE (.ok [.mkdirEv "."]) (fun _ =>
  seqE (baseProject a w) (fun _ =>
  seqE (.ok ((createFolders a.framework).map Event.mkdirEv)) (fun _ =>
  seqE (.ok (match setupEnvFilesRun w with
             | .ok evs => evs
             | .error _ => [.warnEv "Could not set up environment files"])) (fun _ =>
  seqE (.ok (if w.jsconfigExists then [.writeEv "jsconfig.json"] else [])) (fun _ =>
  seqE (authPhase a w) (fun _ =>
  seqE (uiPhase a w) (fun _ =>
  seqE (.ok ((createFolders a.framework).map Event.mkdirEv)) (fun _ =>
  seqE (.ok [.writeEv "README.md"]) (fun _ =>
  seqE (runExec w "git init") (fun _ =>
  seqE (runExec w "git add .") (fun _ =>
  runExec w "git commit")))))))))))

/-- The events of a completed run, empty for an aborted run. -/
def okEvents (r : Except String (List Event)) : List Event :=
  match r with
  | .ok evs => evs
  | .error _ => []

/-- Whether a run completed without a propagated error. -/
def runOk (r : Except String (List Event)) : Bool :=
  match r with
  | .ok _ => true
  | .error _ => false

/-! ### Theorems -/

/-- The `.env` part of `setupEnvFiles`: it keeps an existing file and creates
the content only when the file is absent. -/
theorem setupEnvFiles_envFile (framework : Framework) (secret : String) (fs : EnvFs) :
    (setupEnvFiles framework secret fs).envFile =
      match fs.envFile with
      | none => some (envContent framework secret)
      | some c => some c := by
  cases h : fs.envFile <;>
    simp only [setupEnvFiles, h] <;> split <;> simp [h]

/-- Claim C6: the directory planner is a deterministic function of the
framework choice with no duplicate paths, and it produces exactly, in order,
the listed folders for next and for react. -/
theorem c6_createFolders_exact_and_nodup :
    createFolders Framework.next =
      ["public", "components", "hooks", "lib", "styles", "types", "services"]
    ∧ createFolders Framework.react =
      ["public", "src/components", "src/hooks", "src/layouts", "src/services",
       "src/styles", "src/utils", "src/pages", "src/routes"]
    ∧ ∀ framework : Framework, (createFolders framework).Nodup := by
  refine ⟨rfl, rfl, ?_⟩
  intro framework
  cases framework <;> decide

/-- Claim C7: environment-file setup never overwrites an existing `.env`
(the content is unchanged whenever the file already exists), and running the
setup twice yields the same `.env` content as running it once, whatever
secrets the two runs generate. -/
theorem c7_setupEnvFiles_env_idempotent (framework : Framework) (s1 s2 : String)
    (fs : EnvFs) (c : String) :
    (fs.envFile = some c → (setupEnvFiles framework s1 fs).envFile = some c)
    ∧ (setupEnvFiles framework s2 (setupEnvFiles framework s1 fs)).envFile
        = (setupEnvFiles framework s1 fs).envFile := by
  constructor
  · intro h
    rw [setupEnvFiles_envFile, h]
  · rw [setupEnvFiles_envFile framework s2, setupEnvFiles_envFile framework s1]
    cases h : fs.envFile <;> simp [setupEnvFiles_envFile, h]

/-- Witness for claim C7 at a concrete filesystem holding a `.env` file. -/
theorem c7_setupEnvFiles_env_idempotent_witness :
    (setupEnvFiles Framework.next "abc" (EnvFs.mk (some "KEEP") none)).envFile = some "KEEP"
    ∧ (setupEnvFiles Framework.next "xyz"
        (setupEnvFiles Framework.next "abc" (EnvFs.mk (some "KEEP") none))).envFile
      = (setupEnvFiles Framework.next "abc" (EnvFs.mk (some "KEEP") none)).envFile :=
  ⟨(c7_setupEnvFiles_env_idempotent Framework.next "abc" "xyz" (EnvFs.mk (some "KEEP") none) "KEEP").1 rfl,
   (c7_setupEnvFiles_env_idempotent Framework.next "abc" "xyz" (EnvFs.mk (some "KEEP") none) "KEEP").2⟩

/-- Claim C3, counterexample: with auth requested but no storage mode
selected, the auth template scaffolding still writes two generated files (the
`Routes` and `apiEndpoints` templates), so the run does not yield "no
generated auth files". -/
theorem c3_storage_none_counterexample :
    scaffoldApiServiceFiles Language.ts none Framework.next
      = ["lib/Routes.ts", "lib/apiEndpoints.ts"]
    ∧ (scaffoldApiServiceFiles Language.ts none Framework.next).length = 2 := by
  constructor <;> rfl

/-- Claim C3 as amended: when auth is requested with no storage mode
selected, the API-client template is skipped silently (the `apiClient` file
is not among the written files) and no error is raised, but the `Routes` and
`apiEndpoints` template files are still written. -/
theorem c3_storage_none_skips_only_api_client (language : Language) (framework : Framework) :
    scaffoldApiServiceFiles language none framework =
      [servicesDir framework ++ "/Routes." ++ extOf language,
       servicesDir framework ++ "/apiEndpoints." ++ extOf language] := rfl

/-- Claim C4 fails on the code: the env-var reference list of the react
localStorage API-client template contains `NEXT_PUBLIC_API_URL`, which does
not carry the `VITE_` prefix (the hard-coded refresh URL of the template); the
cookie react template and every next template do follow the convention. -/
theorem c4_react_localStorage_references_next_var :
    apiClientEnvRefs AuthStorageKind.localStorage Framework.react
      = ["VITE_API_URL", "NEXT_PUBLIC_API_URL"]
    ∧ "NEXT_PUBLIC_API_URL" ∈ apiClientEnvRefs AuthStorageKind.localStorage Framework.react
    ∧ List.isPrefixOf "VITE_".toList "NEXT_PUBLIC_API_URL".toList = false
    ∧ apiClientEnvRefs AuthStorageKind.cookie Framework.react = ["VITE_API_URL"]
    ∧ apiClientEnvRefs AuthStorageKind.localStorage Framework.next
        = ["NEXT_PUBLIC_API_URL", "NEXT_PUBLIC_API_URL"]
    ∧ apiClientEnvRefs AuthStorageKind.cookie Framework.next = ["NEXT_PUBLIC_API_URL"] := by
  refine ⟨rfl, ?_, ?_, rfl, rfl, rfl⟩ <;> decide

/-- The event list of a `baseProject` phase in which every external command
succeeded. -/
def baseTrace (a : Answers) (w : World) : List Event :=
  match a.framework with
  | .next =>
      [.execEv "npx create-next-app"] ++
      (if w.packageJsonExists then [.writeEv "package.json"] else [])
  | .react =>
      [.execEv "npx create-vite", .execEv "npm install react-router-dom",
       .execEv "npm install -D tailwindcss postcss autoprefixer",
       .writeEv "tailwind.config.js", .mkdirEv "src", .writeEv "src/index.css",
       .execEv "npm install -D @tailwindcss/vite"] ++
      (if w.viteConfigExists then [.writeEv ("vite.config." ++ extOf a.language)] else [])

/-- The event list of the environment phase, as the orchestrator observes it
after its try/catch. -/
def envTrace (w : World) : List Event :=
  if w.envSetupThrows then [.warnEv "Could not set up environment files"]
  else
    (if w.envFileExists then [] else [.writeEv ".env"]) ++
    (if w.gitignoreHasEnv then [] else [.writeEv ".gitignore"])

/-- The event list of a successful auth phase. -/
def authTrace (a : Answers) : List Event :=
  if a.auth then
    [.execEv "npm install axios js-cookie", .mkdirEv (servicesDir a.framework)] ++
    (scaffoldApiServiceFiles a.language a.authStorage a.framework).map Event.writeEv
  else []

/-- The event list of a successful UI-library phase. -/
def uiTrace (a : Answers) : List Event :=
  match a.uiLibrary with
  | .shadcn => [.execEv "npm install lucide-react class-variance-authority tailwind-merge clsx"]
  | .antd => [.execEv "npm install antd"]
  | .none => []

/-- The full event list of a `scaffoldProject` run in which every external
command succeeded. -/
def scaffoldTrace (a : Answers) (w : World) : List Event :=
  [.mkdirEv "."] ++ baseTrace a w ++ (createFolders a.framework).map Event.mkdirEv ++
  envTrace w ++ (if w.jsconfigExists then [.writeEv "jsconfig.json"] else []) ++
  authTrace a ++ uiTrace a ++ (createFolders a.framework).map Event.mkdirEv ++
  [.writeEv "README.md", .execEv "git init", .execEv "git add .", .execEv "git commit"]

/-- When no external command fails, `scaffoldProject` completes and its
events are exactly `scaffoldTrace` (in particular, an environment-setup
failure alone never aborts the run). -/
theorem scaffoldProject_eq_trace (a : Answers) (w : World)
    (hexec : ∀ cmd, w.execFails cmd = false) :
    scaffoldProject a w = .ok (scaffoldTrace a w) := by
  have hbase : baseProject a w = .ok (baseTrace a w) := by
    cases hfw : a.framework <;>
      simp [baseProject, baseTrace, hfw, seqE, runExec, hexec]
  have hauth : authPhase a w = .ok (authTrace a) := by
    cases hau : a.auth <;>
      simp [authPhase, authTrace, hau, seqE, runExec, hexec]
  have hui : uiPhase a w = .ok (uiTrace a) := by
    cases hu : a.uiLibrary <;>
      simp [uiPhase, uiTrace, hu, runExec, hexec]
  have henv : (match setupEnvFilesRun w with
      | .ok evs => evs
      | .error _ => [Event.warnEv "Could not set up environment files"]) = envTrace w := by
    cases he : w.envSetupThrows <;>
      simp [setupEnvFilesRun, envTrace, he]
  simp [scaffoldProject, seqE, runExec, hexec, hbase, hauth, hui, henv, scaffoldTrace]

/-- A concrete answer record with `redux = true` (the failing input for
claim C5). -/
def reduxAnswers : Answers :=
  Answers.mk "my-app" Framework.react Routing.app Language.ts true true
    (some AuthStorageKind.cookie) UiLibrary.none

/-- A concrete world in which every external command succeeds and the
environment step does not throw. -/
def calmWorld : World :=
  World.mk (fun _ => false) false true false false false false

/-- Claim C5 fails on the code: even with `redux = true`, a completed
`scaffoldProject` run writes none of the files that `scaffoldReduxStore`
would produce (the orchestrator never invokes the Redux template writer),
although the Redux writer does produce the store, slice and thunks files. -/
theorem c5_scaffoldProject_never_writes_redux :
    reduxAnswers.redux = true
    ∧ runOk (scaffoldProject reduxAnswers calmWorld) = true
    ∧ scaffoldReduxStoreFiles Language.ts Framework.react
      = ["src/store/store.ts", "src/store/features/counter/counterSlice.ts",
         "src/store/features/counter/counterThunks.ts",
         "src/store/types/counter.types.ts", "src/store/hooks.ts"]
    ∧ ((scaffoldReduxStoreFiles Language.ts Framework.react).map Event.writeEv).all
        (fun e => !(okEvents (scaffoldProject reduxAnswers calmWorld)).contains e) = true := by
  refine ⟨rfl, ?_, by decide, ?_⟩ <;>
    rw [scaffoldProject_eq_trace reduxAnswers calmWorld (fun cmd => rfl)] <;> decide

/-- Claim C8: when the environment-file setup step throws and no external
command fails, `scaffoldProject` still completes (the failure is never
propagated), logs a warning, and every subsequent step still executes: the
`jsconfig.json` rewrite when the file exists, the auth template files when
auth was requested, the UI-library installation when one was chosen, the
README write and the git commands. -/
theorem c8_env_failure_is_non_fatal (a : Answers) (w : World)
    (hexec : ∀ cmd, w.execFails cmd = false)
    (henv : w.envSetupThrows = true) :
    runOk (scaffoldProject a w) = true
    ∧ Event.warnEv "Could not set up environment files" ∈ okEvents (scaffoldProject a w)
    ∧ Event.writeEv "README.md" ∈ okEvents (scaffoldProject a w)
    ∧ Event.execEv "git init" ∈ okEvents (scaffoldProject a w)
    ∧ Event.execEv "git add ." ∈ okEvents (scaffoldProject a w)
    ∧ Event.execEv "git commit" ∈ okEvents (scaffoldProject a w)
    ∧ (w.jsconfigExists = true →
        Event.writeEv "jsconfig.json" ∈ okEvents (scaffoldProject a w))
    ∧ (a.auth = true →
        Event.writeEv (servicesDir a.framework ++ "/Routes." ++ extOf a.language)
          ∈ okEvents (scaffoldProject a w))
    ∧ (a.uiLibrary = UiLibrary.shadcn →
        Event.execEv "npm install lucide-react class-variance-authority tailwind-merge clsx"
          ∈ okEvents (scaffoldProject a w))
    ∧ (a.uiLibrary = UiLibrary.antd →
        Event.execEv "npm install antd" ∈ okEvents (scaffoldProject a w)) := by
  have hs := scaffoldProject_eq_trace a w hexec
  simp only [hs, okEvents, runOk]
  refine ⟨trivial, ?_, ?_, ?_, ?_, ?_, ?_, ?_, ?_, ?_⟩
  · simp [scaffoldTrace, envTrace, henv]
  · simp [scaffoldTrace]
  · simp [scaffoldTrace]
  · simp [scaffoldTrace]
  · simp [scaffoldTrace]
  · intro hj
    simp [scaffoldTrace, hj]
  · intro ha
    simp [scaffoldTrace, authTrace, ha, scaffoldApiServiceFiles]
  · intro hu
    simp [scaffoldTrace, uiTrace, hu]
  · intro hu
    simp [scaffoldTrace, uiTrace, hu]

/-- A concrete answer record for the claim C8 witness: next with JavaScript,
auth via localStorage, Ant Design. -/
def envFailAnswers : Answers :=
  Answers.mk "app" Framework.next Routing.pages Language.js false true
    (some AuthStorageKind.localStorage) UiLibrary.antd

/-- A concrete world for the claim C8 witness: no external command fails and
the environment-setup step throws. -/
def envFailWorld : World :=
  World.mk (fun _ => false) true false true true true true

/-- Witness for claim C8 at a concrete run whose environment step throws. -/
theorem c8_env_failure_is_non_fatal_witness :
    runOk (scaffoldProject envFailAnswers envFailWorld) = true
    ∧ Event.warnEv "Could not set up environment files"
        ∈ okEvents (scaffoldProject envFailAnswers envFailWorld)
    ∧ Event.writeEv "README.md" ∈ okEvents (scaffoldProject envFailAnswers envFailWorld)
    ∧ Event.execEv "git init" ∈ okEvents (scaffoldProject envFailAnswers envFailWorld)
    ∧ Event.execEv "git add ." ∈ okEvents (scaffoldProject envFailAnswers envFailWorld)
    ∧ Event.execEv "git commit" ∈ okEvents (scaffoldProject envFailAnswers envFailWorld)
    ∧ Event.writeEv "jsconfig.json" ∈ okEvents (scaffoldProject envFailAnswers envFailWorld)
    ∧ Event.writeEv (servicesDir Framework.next ++ "/Routes." ++ extOf Language.js)
        ∈ okEvents (scaffoldProject envFailAnswers envFailWorld)
    ∧ Event.execEv "npm install antd" ∈ okEvents (scaffoldProject envFailAnswers envFailWorld) :=
  let T := c8_env_failure_is_non_fatal envFailAnswers envFailWorld (fun _ => rfl) rfl
  ⟨T.1, T.2.1, T.2.2.1, T.2.2.2.1, T.2.2.2.2.1, T.2.2.2.2.2.1,
   T.2.2.2.2.2.2.1 rfl, T.2.2.2.2.2.2.2.1 rfl, T.2.2.2.2.2.2.2.2.2 rfl⟩

/-- Claim C10: in the localStorage variant of the generated client, the 401
refresh attempt is gated solely by the `document.cookie` check: when no
`refreshToken=` cookie is present, no refresh and no retry occur and the
normalized error surfaces immediately, even though a refresh token is stored
in localStorage. -/
theorem c10_localStorage_gate_is_cookie_check
    (env : CallEnv) (s : LSState) (m : Option String) (tok : String)
    (h1 : env.first = AxiosOutcome.respError 401 m)
    (h2 : s.hasTriedRefresh = false)
    (h3 : hasRefreshTokenCookie s = false)
    (_h4 : s.refreshTok = some tok) :
    apiLS env s
      = (ApiOutcome.thrownMessage (m.getD "Unknown API error"), s, (⟨0, 0⟩ : CallTrace)) := by
  unfold apiLS
  rw [h1]
  simp [h2, h3]

/-- Witness for claim C10: a 401 with a stored refresh token but no
`refreshToken=` cookie surfaces the normalized error with no refresh call. -/
theorem c10_localStorage_gate_is_cookie_check_witness :
    apiLS
      (CallEnv.mk (AxiosOutcome.respError 401 (some "Unauthorized"))
        RefreshOutcome.failure AxiosOutcome.noResponse)
      (LSState.mk false (some "acc") (some "storedRefresh") "theme=dark" "/home")
      = (ApiOutcome.thrownMessage "Unauthorized",
         LSState.mk false (some "acc") (some "storedRefresh") "theme=dark" "/home",
         (⟨0, 0⟩ : CallTrace)) :=
  c10_localStorage_gate_is_cookie_check
    (CallEnv.mk (AxiosOutcome.respError 401 (some "Unauthorized"))
      RefreshOutcome.failure AxiosOutcome.noResponse)
    (LSState.mk false (some "acc") (some "storedRefresh") "theme=dark" "/home")
    (some "Unauthorized") "storedRefresh" rfl rfl (by decide) rfl

/-- Claim C1: on a first-attempt 401 with the refresh-attempted flag clear
and the refresh-token indicator present, the client makes exactly one
token-refresh call followed by exactly one retry; when the retry succeeds its
data is returned and the flag is false afterwards, so a second independent
401 triggers a fresh refresh attempt.  Both storage variants (whose two
language renderings share this control flow) are covered. -/
theorem c1_one_refresh_one_retry
    (envL envC env2 : CallEnv) (s : LSState) (sC : CookieState)
    (mL mC m2 : Option String) (tok : String) (a b : Option String) (d dC : Nat)
    (h1 : envL.first = AxiosOutcome.respError 401 mL)
    (h2 : s.hasTriedRefresh = false)
    (h3 : hasRefreshTokenCookie s = true)
    (h4 : s.refreshTok = some tok)
    (h5 : envL.refresh = RefreshOutcome.success a b)
    (h6 : envL.retry = AxiosOutcome.success d)
    (g1 : envC.first = AxiosOutcome.respError 401 mC)
    (g2 : sC.hasTriedRefresh = false)
    (g3 : hasRefreshTokenC sC = true)
    (g5 : envC.refresh = RefreshOutcome.success a b)
    (g6 : envC.retry = AxiosOutcome.success dC) :
    (apiLS envL s).1 = ApiOutcome.ok d
    ∧ (apiLS envL s).2.2 = (⟨1, 1⟩ : CallTrace)
    ∧ (apiLS envL s).2.1.hasTriedRefresh = false
    ∧ (env2.first = AxiosOutcome.respError 401 m2 →
        (apiLS env2 (apiLS envL s).2.1).2.2.refreshCalls = 1)
    ∧ (apiCookie envC sC).1 = ApiOutcome.ok dC
    ∧ (apiCookie envC sC).2.2 = (⟨1, 1⟩ : CallTrace)
    ∧ (apiCookie envC sC).2.1.hasTriedRefresh = false
    ∧ (env2.first = AxiosOutcome.respError 401 m2 →
        (apiCookie env2 (apiCookie envC sC).2.1).2.2.refreshCalls = 1) := by
  have hls : apiLS envL s
      = (ApiOutcome.ok d,
         { s with hasTriedRefresh := false,
                  accessToken := updateTok a s.accessToken,
                  refreshTok := updateTok b s.refreshTok },
         (⟨1, 1⟩ : CallTrace)) := by
    unfold apiLS
    rw [h1, h5, h6]
    simp [h2, h3, refreshTokenLS, h4]
  have hck : apiCookie envC sC
      = (ApiOutcome.ok dC, { sC with hasTriedRefresh := false }, (⟨1, 1⟩ : CallTrace)) := by
    unfold apiCookie
    rw [g1, g5, g6]
    simp [g2, g3, refreshTokenCookie]
  have h3x : includesSubstr s.cookie "refreshToken=" = true := h3
  have g3x : includesSubstr sC.cookie "refreshToken=" = true := g3
  refine ⟨by rw [hls], by rw [hls], by rw [hls], ?_, by rw [hck], by rw [hck], by rw [hck], ?_⟩
  · intro hm2
    rw [hls]
    unfold apiLS
    rw [hm2]
    simp [hasRefreshTokenCookie, h3x]
    split
    · split <;> rfl
    · rfl
  · intro hm2
    rw [hck]
    unfold apiCookie
    rw [hm2]
    simp [hasRefreshTokenC, g3x]
    split
    · split <;> rfl
    · rfl

/-- Witness for claim C1: concrete successful refresh-then-retry runs in both
storage variants, with a fresh refresh attempt on a second independent 401. -/
theorem c1_one_refresh_one_retry_witness :
    (apiLS
        (CallEnv.mk (AxiosOutcome.respError 401 (some "expired"))
          (RefreshOutcome.success (some "newAcc") (some "newRef")) (AxiosOutcome.success 7))
        (LSState.mk false (some "acc") (some "ref") "refreshToken=zzz" "/home")).1
      = ApiOutcome.ok 7
    ∧ (apiLS
        (CallEnv.mk (AxiosOutcome.respError 401 (some "expired"))
          (RefreshOutcome.success (some "newAcc") (some "newRef")) (AxiosOutcome.success 7))
        (LSState.mk false (some "acc") (some "ref") "refreshToken=zzz" "/home")).2.2
      = (⟨1, 1⟩ : CallTrace)
    ∧ (apiLS
        (CallEnv.mk (AxiosOutcome.respError 401 (some "expired"))
          (RefreshOutcome.success (some "newAcc") (some "newRef")) (AxiosOutcome.success 7))
        (LSState.mk false (some "acc") (some "ref") "refreshToken=zzz" "/home")).2.1.hasTriedRefresh
      = false
    ∧ (apiLS
        (CallEnv.mk (AxiosOutcome.respError 401 (some "again")) RefreshOutcome.failure
          AxiosOutcome.noResponse)
        (apiLS
          (CallEnv.mk (AxiosOutcome.respError 401 (some "expired"))
            (RefreshOutcome.success (some "newAcc") (some "newRef")) (AxiosOutcome.success 7))
          (LSState.mk false (some "acc") (some "ref") "refreshToken=zzz" "/home")).2.1).2.2.refreshCalls
      = 1
    ∧ (apiCookie
        (CallEnv.mk (AxiosOutcome.respError 401 (some "expired"))
          (RefreshOutcome.success (some "newAcc") (some "newRef")) (AxiosOutcome.success 9))
        (CookieState.mk false "refreshToken=yyy" "/home")).1
      = ApiOutcome.ok 9 := by
  have T := c1_one_refresh_one_retry
    (CallEnv.mk (AxiosOutcome.respError 401 (some "expired"))
      (RefreshOutcome.success (some "newAcc") (some "newRef")) (AxiosOutcome.success 7))
    (CallEnv.mk (AxiosOutcome.respError 401 (some "expired"))
      (RefreshOutcome.success (some "newAcc") (some "newRef")) (AxiosOutcome.success 9))
    (CallEnv.mk (AxiosOutcome.respError 401 (some "again")) RefreshOutcome.failure
      AxiosOutcome.noResponse)
    (LSState.mk false (some "acc") (some "ref") "refreshToken=zzz" "/home")
    (CookieState.mk false "refreshToken=yyy" "/home")
    (some "expired") (some "expired") (some "again") "ref"
    (some "newAcc") (some "newRef") 7 9
    rfl rfl (by decide) rfl rfl rfl rfl rfl (by decide) rfl rfl
  exact ⟨T.1, T.2.1, T.2.2.1, T.2.2.2.1 rfl, T.2.2.2.2.1⟩

/-- Claim C2: whenever the refresh (or the single retry after it) fails
following a first-attempt 401 entered with the indicator present, the client
sets the location to the login route and throws the session-expired message,
the refresh-attempted flag is false after this terminal failure, and in every
call at most one refresh and at most one retry occur (no retry loop). -/
theorem c2_refresh_failure_redirects_and_bounds
    (env envC : CallEnv) (s : LSState) (sC : CookieState) (m mC : Option String)
    (h1 : env.first = AxiosOutcome.respError 401 m)
    (h2 : s.hasTriedRefresh = false)
    (h3 : hasRefreshTokenCookie s = true)
    (hf : env.refresh = RefreshOutcome.failure ∨ retryThrows env.retry = true)
    (g1 : envC.first = AxiosOutcome.respError 401 mC)
    (g2 : sC.hasTriedRefresh = false)
    (g3 : hasRefreshTokenC sC = true)
    (gf : envC.refresh = RefreshOutcome.failure ∨ retryThrows envC.retry = true) :
    (apiLS env s).1 = ApiOutcome.thrownMessage sessionExpiredMsg
    ∧ (apiLS env s).2.1.location = loginRoute
    ∧ (apiLS env s).2.1.hasTriedRefresh = false
    ∧ (apiCookie envC sC).1 = ApiOutcome.thrownMessage sessionExpiredMsg
    ∧ (apiCookie envC sC).2.1.location = loginRoute
    ∧ (apiCookie envC sC).2.1.hasTriedRefresh = false
    ∧ (∀ e : CallEnv, ∀ t : LSState,
        (apiLS e t).2.2.refreshCalls ≤ 1 ∧ (apiLS e t).2.2.retryCalls ≤ 1)
    ∧ (∀ e : CallEnv, ∀ t : CookieState,
        (apiCookie e t).2.2.refreshCalls ≤ 1 ∧ (apiCookie e t).2.2.retryCalls ≤ 1) := by
  have hL : (apiLS env s).1 = ApiOutcome.thrownMessage sessionExpiredMsg
      ∧ (apiLS env s).2.1.location = loginRoute
      ∧ (apiLS env s).2.1.hasTriedRefresh = false := by
    unfold apiLS
    rw [h1]
    cases hrf : env.refresh <;> cases hrt : s.refreshTok <;> cases hre : env.retry <;>
      simp_all [refreshTokenLS, retryThrows]
  have hC : (apiCookie envC sC).1 = ApiOutcome.thrownMessage sessionExpiredMsg
      ∧ (apiCookie envC sC).2.1.location = loginRoute
      ∧ (apiCookie envC sC).2.1.hasTriedRefresh = false := by
    unfold apiCookie
    rw [g1]
    cases grf : envC.refresh <;> cases gre : envC.retry <;>
      simp_all [refreshTokenCookie, retryThrows]
  have hB : ∀ e : CallEnv, ∀ t : LSState,
      (apiLS e t).2.2.refreshCalls ≤ 1 ∧ (apiLS e t).2.2.retryCalls ≤ 1 := by
    intro e t
    unfold apiLS
    split
    · simp
    · simp
    · split
      · split
        · split <;> simp
        · simp
      · simp
  have hBC : ∀ e : CallEnv, ∀ t : CookieState,
      (apiCookie e t).2.2.refreshCalls ≤ 1 ∧ (apiCookie e t).2.2.retryCalls ≤ 1 := by
    intro e t
    unfold apiCookie
    split
    · simp
    · simp
    · split
      · split
        · split <;> simp
        · simp
      · simp
  exact ⟨hL.1, hL.2.1, hL.2.2, hC.1, hC.2.1, hC.2.2, hB, hBC⟩

/-- Witness for claim C2: a concrete 401 followed by a failing refresh, in
both storage variants, with the loop bound evaluated at the same inputs. -/
theorem c2_refresh_failure_redirects_and_bounds_witness :
    (apiLS
        (CallEnv.mk (AxiosOutcome.respError 401 (some "expired")) RefreshOutcome.failure
          AxiosOutcome.noResponse)
        (LSState.mk false (some "acc") (some "ref") "refreshToken=zzz" "/home")).1
      = ApiOutcome.thrownMessage sessionExpiredMsg
    ∧ (apiLS
        (CallEnv.mk (AxiosOutcome.respError 401 (some "expired")) RefreshOutcome.failure
          AxiosOutcome.noResponse)
        (LSState.mk false (some "acc") (some "ref") "refreshToken=zzz" "/home")).2.1.location
      = loginRoute
    ∧ (apiCookie
        (CallEnv.mk (AxiosOutcome.respError 401 (some "expired")) RefreshOutcome.failure
          AxiosOutcome.noResponse)
        (CookieState.mk false "refreshToken=yyy" "/home")).1
      = ApiOutcome.thrownMessage sessionExpiredMsg
    ∧ (apiLS
        (CallEnv.mk (AxiosOutcome.respError 401 (some "expired")) RefreshOutcome.failure
          AxiosOutcome.noResponse)
        (LSState.mk false (some "acc") (some "ref") "refreshToken=zzz" "/home")).2.2.refreshCalls
      ≤ 1 := by
  have T := c2_refresh_failure_redirects_and_bounds
    (CallEnv.mk (AxiosOutcome.respError 401 (some "expired")) RefreshOutcome.failure
      AxiosOutcome.noResponse)
    (CallEnv.mk (AxiosOutcome.respError 401 (some "expired")) RefreshOutcome.failure
      AxiosOutcome.noResponse)
    (LSState.mk false (some "acc") (some "ref") "refreshToken=zzz" "/home")
    (CookieState.mk false "refreshToken=yyy" "/home")
    (some "expired") (some "expired")
    rfl rfl (by decide) (Or.inl rfl) rfl rfl (by decide) (Or.inl rfl)
  exact ⟨T.1, T.2.1, T.2.2.2.1,
    (T.2.2.2.2.2.2.1
      (CallEnv.mk (AxiosOutcome.respError 401 (some "expired")) RefreshOutcome.failure
        AxiosOutcome.noResponse)
      (LSState.mk false (some "acc") (some "ref") "refreshToken=zzz" "/home")).1⟩

/-- Claim C9: the generated `optimisticUpdate` helper first passes the
proposed state to `setLocalData`; when the network write fails it passes the
caller-supplied previous state afterwards (rollback) and returns normally,
and when the write succeeds no rollback happens.  Both storage variants are
covered. -/
theorem c9_optimistic_update_rollback
    (env : CallEnv) (s : LSState) (sC : CookieState) (u c : Nat) :
    (optimisticUpdateLS env s u c).1
        = (if apiOk (apiLS env s).1 then [u] else [u, c])
    ∧ (optimisticUpdateLS env s u c).1.head? = some u
    ∧ (optimisticUpdateCookie env sC u c).1
        = (if apiOk (apiCookie env sC).1 then [u] else [u, c])
    ∧ (optimisticUpdateCookie env sC u c).1.head? = some u := by
  rcases hres : apiLS env s with ⟨o, s2, t⟩
  rcases gres : apiCookie env sC with ⟨oc, sc2, tc⟩
  unfold optimisticUpdateLS optimisticUpdateCookie
  rw [hres, gres]
  cases o <;> cases oc <;> simp [apiOk]

end Quicky
